import Mathlib

/-!
# MaterialMappingView

A shallow embedding of `src/internal/MaterialMappingView.cpp` (mitk-gem, material
mapping plugin) and the properties of it that the specification states.

Conventions of the embedding

* C++ `double` values are exact rationals (`ℚ`); the literals `1000.0`, `0.09`,
  `1.14`, `0.6`, `1.49` are the rationals they denote.
* `pow` from `<cmath>` is a parameter `pow : ℚ → ℚ → ℚ` of every definition that
  calls it: nothing is assumed about it.
* Pointers are `Option`s; dereferencing an empty pointer is recorded as a `Fault`
  and ends the handler.
* Calls into collaborators whose code is not part of this file (the filter, the
  data storage, the logger, the message box, the test runner) are recorded as
  `Event`s in the order the handler makes them.
-/

namespace MaterialMappingView

/-! ## Numeric functors of `startButtonClicked` -/

/-- The C++ `std::max(a, b)`, which is `(a < b) ? b : a`. -/
def stdMax (a b : ℚ) : ℚ := if a < b then b else a

/-- The lambda handed to `SetLinearFunctor` (line 102-104):
`(_ct/1000.0+0.09) / 1.14`. -/
def linearFunctor (_ct : ℚ) : ℚ := (_ct / 1000 + 9 / 100) / (114 / 100)

/-- The first argument of `pow` in the lambda handed to `SetPowerLawFunctor`
(line 106): `std::max(_ctash, 0.0)/0.6`. -/
def powerLawBase (_ctash : ℚ) : ℚ := stdMax _ctash 0 / (6 / 10)

/-- The lambda handed to `SetPowerLawFunctor` (line 105-107):
`6850*pow((std::max(_ctash, 0.0)/0.6), 1.49)`. -/
def powerLawFunctor (pow : ℚ → ℚ → ℚ) (_ctash : ℚ) : ℚ :=
  6850 * pow (powerLawBase _ctash) (149 / 100)

/-! ### The functors as the specification words them -/

namespace Spec

/-- Calibration curve of the specification (§3): `{slope, offset}`. -/
structure CalibrationCurve where
  slope : ℚ
  offset : ℚ

/-- Stage 1 of §4.3: `rhoCt = calibrationCurve.slope * intensity + calibrationCurve.offset`. -/
def rhoCt (c : CalibrationCurve) (intensity : ℚ) : ℚ := c.slope * intensity + c.offset

/-- Stage 2 of §4.3: `rhoAsh = (rhoCt + offset) / divisor`. -/
def rhoAsh (offset divisor : ℚ) (rhoCt : ℚ) : ℚ := (rhoCt + offset) / divisor

/-- Stage 3 of §4.3: `rhoApp = rhoAsh / divisor2`. -/
def rhoApp (divisor2 : ℚ) (rhoAsh : ℚ) : ℚ := rhoAsh / divisor2

/-- Linear modulus map of §3: `(x, a, b) -> a*x + b`. -/
def linearMap (a b x : ℚ) : ℚ := a * x + b

/-- Power-law modulus map of §3: `(x, a, b) -> a * pow(max(x,0), b)`. -/
def powerLawMap (pow : ℚ → ℚ → ℚ) (a b x : ℚ) : ℚ := a * pow (max x 0) b

end Spec

/-! ## Data handled by the view -/

/-- A `mitk::Image`, known to the view only as a handle. -/
structure Image where
  handle : Nat
  deriving DecidableEq, Repr

/-- A `mitk::UnstructuredGrid`, known to the view only as a handle. -/
structure UnstructuredGrid where
  handle : Nat
  deriving DecidableEq, Repr

/-- The `mitk::BaseData` behind a node: an image, an unstructured grid, or data
of another type. -/
inductive BaseData where
  | image (i : Image)
  | unstructuredGrid (g : UnstructuredGrid)
  | other (handle : Nat)
  deriving DecidableEq, Repr

/-- Values of the node properties that `startButtonClicked` sets. -/
inductive Property where
  | string (s : String)
  | int (i : Int)
  deriving DecidableEq, Repr

/-- A `mitk::DataNode`: its data pointer (possibly empty) and its properties in
the order they were set. -/
structure DataNode where
  data : Option BaseData
  properties : List (String × Property)
  deriving DecidableEq, Repr

/-- The cast `dynamic_cast<mitk::Image *>(node->GetData())`: empty when the data
pointer is empty or the data is not an image. -/
def asImage : Option BaseData → Option Image
  | some (BaseData.image i) => some i
  | _ => none

/-- The cast `dynamic_cast<mitk::UnstructuredGrid *>(node->GetData())`. -/
def asUnstructuredGrid : Option BaseData → Option UnstructuredGrid
  | some (BaseData.unstructuredGrid g) => some g
  | _ => none

/-- The fitted calibration line, `BoneDensityParameters::RhoCt`. -/
structure RhoCt where
  slope : ℚ
  offset : ℚ
  deriving DecidableEq, Repr

/-- Parameters of the ash-density stage, `BoneDensityParameters::RhoAsh(offset, divisor)`. -/
structure RhoAsh where
  offset : ℚ
  divisor : ℚ
  deriving DecidableEq, Repr

/-- Parameters of the apparent-density stage, `BoneDensityParameters::RhoApp(divisor)`. -/
structure RhoApp where
  divisor : ℚ
  deriving DecidableEq, Repr

/-- Modelled from the spec: the class `BoneDensityFunctor` is declared outside
this file. Following §3 (a per-stage enable flag plus the stage's coefficients)
each stage is an optional parameter record, empty in a freshly constructed
functor and filled by the stage's setter. -/
structure BoneDensityFunctor where
  rhoCt : Option RhoCt := none
  rhoAsh : Option RhoAsh := none
  rhoApp : Option RhoApp := none
  deriving DecidableEq, Repr

/-- The setter `BoneDensityFunctor::SetRhoCt`. -/
def BoneDensityFunctor.SetRhoCt (f : BoneDensityFunctor) (p : RhoCt) : BoneDensityFunctor :=
  { f with rhoCt := some p }

/-- The setter `BoneDensityFunctor::SetRhoAsh`. -/
def BoneDensityFunctor.SetRhoAsh (f : BoneDensityFunctor) (p : RhoAsh) : BoneDensityFunctor :=
  { f with rhoAsh := some p }

/-- The setter `BoneDensityFunctor::SetRhoApp`. -/
def BoneDensityFunctor.SetRhoApp (f : BoneDensityFunctor) (p : RhoApp) : BoneDensityFunctor :=
  { f with rhoApp := some p }

/-- What has been set on a `MaterialMappingFilter` (declared outside this file)
since `MaterialMappingFilter::New()`. -/
structure MaterialMappingFilter where
  input : Option UnstructuredGrid := none
  intensityImage : Option Image := none
  linearFunctor : Option (ℚ → ℚ) := none
  powerLawFunctor : Option (ℚ → ℚ) := none

/-- The object behind `m_TestRunner` (`Testing::Runner`, declared outside this
file). -/
inductive Runner where
  | mk
  deriving DecidableEq, Repr

/-- Calls the handlers make into collaborators, in program order. -/
inductive Event where
  -- `MITK_INFO(...) << msg`.
  | info (msg : String)
  -- `MITK_INFO(...) << ret` in `createDensityFunctorFromGui`.
  | infoFunctor (f : BoneDensityFunctor)
  -- `gui::setMandatoryField(widget, mandatory)`.
  | setMandatoryField (widget : String) (mandatory : Bool)
  -- `QMessageBox::warning(NULL, title, msg)`.
  | warning (title msg : String)
  -- `MaterialMappingFilter::New()`.
  | filterNew
  -- `filter->Update()` on a filter configured as `f`.
  | filterUpdate (f : MaterialMappingFilter)
  -- `m_TestRunner->compareGrids(result, expectedResult)`.
  | compareGrids (result expectedResult : Option UnstructuredGrid)

/-- Events that create or run the filter or the grid comparison. -/
def Event.isRun : Event → Bool
  | Event.filterNew => true
  | Event.filterUpdate _ => true
  | Event.compareGrids _ _ => true
  | _ => false

/-- The filter configuration of a `filter->Update()` event. -/
def Event.updatedFilter : Event → Option MaterialMappingFilter
  | Event.filterUpdate f => some f
  | _ => none

/-- Dereferences of an empty pointer in `startButtonClicked`. -/
inductive Fault where
  -- `imageNode->GetData()` (line 93) with no image node.
  | emptyImageNode
  -- `ugridNode->GetData()` (line 94) with no grid node.
  | emptyUgridNode
  -- `expectedResultNode->GetData()` (line 125) with no expected-result node.
  | emptyExpectedResultNode
  -- `m_TestRunner->compareGrids(...)` (line 126) with an empty `m_TestRunner`.
  | emptyTestRunner
  deriving DecidableEq, Repr

/-- The widgets of `m_Controls` that the handlers read or write. A combo box is
the node `GetSelectedNode()` returns; the table view is the rows of its
selection model, in the order `selectedRows()` lists them (`item.row()` of a
selected row is a position in the table, so a natural number). -/
structure Controls where
  greyscaleImageComboBox : Option DataNode
  unstructuredGridComboBox : Option DataNode
  expectedResultComboBox : Option DataNode
  rhoAshCheckBox : Bool
  rhoAppCheckBox : Bool
  rhoAshOffsetSpinBox : ℚ
  rhoAshDivisorSpinBox : ℚ
  rhoAppDivisorSpinBox : ℚ
  linEQSlopeSpinBox : ℚ
  linEQOffsetSpinBox : ℚ
  testingDoComparisonCheckBox : Bool
  testingGroupShown : Bool
  calibrationTableView : List Nat

/-- The members of the view and the collaborators it talks to: the controls, the
rows `(intensity, density)` of `m_CalibrationDataModel`, `m_TestRunner`, the
nodes of the data storage, and the calls made so far. -/
structure ViewState where
  m_Controls : Controls
  m_CalibrationDataModel : List (ℚ × ℚ)
  m_TestRunner : Option Runner
  dataStorage : List DataNode
  log : List Event

/-- Appends a call to the log. -/
def ViewState.emit (s : ViewState) (e : Event) : ViewState :=
  { s with log := s.log ++ [e] }

/-- The state a handler leaves and the empty-pointer dereference that ended it,
if any. -/
structure Outcome where
  state : ViewState
  fault : Option Fault

/-- Code the view calls that is not part of this file, taken as parameters:
`pow` of `<cmath>`, `CalibrationDataModel::getFittedLine` as a function of the
table rows, and the grid that `filter->GetOutput()` holds after
`filter->Update()` as a function of the filter's configuration. -/
structure Env where
  pow : ℚ → ℚ → ℚ
  getFittedLine : List (ℚ × ℚ) → RhoCt
  filterOutput : MaterialMappingFilter → UnstructuredGrid

/-! ## The handlers -/

/-- Embedding of `MaterialMappingView::CreateQtPartControl` (line 17-63). `TESTING` is the
compile-time flag of the plugin. Of the widget set-up the model keeps what other
handlers observe: the visibility of the testing group and the assignment
`m_TestRunner = std::unique_ptr<Testing::Runner>()` (line 48), whose right-hand
side is a default-constructed, hence empty, `unique_ptr`. -/
def CreateQtPartControl (TESTING : Bool) (s : ViewState) : ViewState :=
  if TESTING then
    { s with
      m_Controls := { s.m_Controls with testingGroupShown := true }
      m_TestRunner := none }
  else
    { s with m_Controls := { s.m_Controls with testingGroupShown := false } }

/-- Insertion `std::set<int>::insert` on the ascending sequence of the set's elements. -/
def setInsert (x : Nat) : List Nat → List Nat
  | [] => [x]
  | y :: ys =>
    if x < y then x :: y :: ys
    else if x = y then y :: ys
    else y :: setInsert x ys

/-- The set `rowsToDelete` after the `foreach` loop (line 68-72), as its
ascending element sequence. -/
def rowsToDelete (selectedItems : List Nat) : List Nat :=
  selectedItems.foldl (fun set item => setInsert item set) []

/-- The arguments of the `removeRow` calls in the order the reverse iteration
(line 74-76) makes them. -/
def removeRowCalls (selectedItems : List Nat) : List Nat :=
  (rowsToDelete selectedItems).reverse

/-- Modelled from the spec: `CalibrationDataModel::removeRow` is defined outside
this file; `removeRow(i)` deletes the element at position `i` of the table. -/
def removeRow (rows : List (ℚ × ℚ)) (i : Nat) : List (ℚ × ℚ) :=
  rows.eraseIdx i

/-- Embedding of `MaterialMappingView::deleteSelectedRows` (line 65-77). -/
def deleteSelectedRows (s : ViewState) : ViewState :=
  let selectedItems := s.m_Controls.calibrationTableView
  { s with
    m_CalibrationDataModel :=
      (removeRowCalls selectedItems).foldl removeRow s.m_CalibrationDataModel }

/-- Embedding of `MaterialMappingView::tableDataChanged` (line 132-136). -/
def tableDataChanged (env : Env) (s : ViewState) : ViewState :=
  let linearEqParams := env.getFittedLine s.m_CalibrationDataModel
  { s with
    m_Controls :=
      { s.m_Controls with
        linEQSlopeSpinBox := linearEqParams.slope
        linEQOffsetSpinBox := linearEqParams.offset } }

/-- Embedding of `MaterialMappingView::isValidSelection` (line 138-160): the returned flag
and the state with the calls it made. -/
def isValidSelection (s : ViewState) : Bool × ViewState :=
  let imageNode := s.m_Controls.greyscaleImageComboBox
  let ugridNode := s.m_Controls.unstructuredGridComboBox
  let s1 := s.emit (Event.setMandatoryField "greyscaleSelector" imageNode.isNone)
  let s2 := s1.emit (Event.setMandatoryField "meshSelector" ugridNode.isNone)
  match imageNode, ugridNode with
  | some inode, some unode =>
    let image := asImage inode.data
    let ugrid := asUnstructuredGrid unode.data
    if image.isSome && ugrid.isSome then
      (true, s2)
    else
      let s3 := s2.emit
        (Event.warning "Error" "Invalid data. Select an image and a unstructured grid.")
      (false, s3.emit (Event.info "invalid data selection"))
  | _, _ => (false, s2.emit (Event.info "invalid data selection"))

/-- Embedding of `MaterialMappingView::createDensityFunctorFromGui` (line 162-180): the
returned functor and the state with the call it made. -/
def createDensityFunctorFromGui (env : Env) (s : ViewState) : BoneDensityFunctor × ViewState :=
  let ret : BoneDensityFunctor := {}
  let ret := ret.SetRhoCt (env.getFittedLine s.m_CalibrationDataModel)
  let ret :=
    if s.m_Controls.rhoAshCheckBox then
      let rhoAsh_offset := s.m_Controls.rhoAshOffsetSpinBox
      let rhoAsh_divisor := s.m_Controls.rhoAshDivisorSpinBox
      let ret := ret.SetRhoAsh ⟨rhoAsh_offset, rhoAsh_divisor⟩
      if s.m_Controls.rhoAppCheckBox then
        let rhoApp_divisor := s.m_Controls.rhoAppDivisorSpinBox
        ret.SetRhoApp ⟨rhoApp_divisor⟩
      else ret
    else ret
  (ret, s.emit (Event.infoFunctor ret))

/-- The node `startButtonClicked` builds for the result (line 112-117). -/
def resultNode (result : UnstructuredGrid) : DataNode :=
  { data := some (BaseData.unstructuredGrid result)
    properties :=
      [("name", Property.string "material mapped mesh"), ("layer", Property.int 1)] }

/-- The `TESTING` block of `startButtonClicked` (line 122-128). -/
def testingBlock (TESTING : Bool) (result : UnstructuredGrid) (s : ViewState) : Outcome :=
  if TESTING then
    if s.m_Controls.testingDoComparisonCheckBox then
      match s.m_Controls.expectedResultComboBox with
      | none => ⟨s, some Fault.emptyExpectedResultNode⟩
      | some expectedResultNode =>
        let expectedResult := asUnstructuredGrid expectedResultNode.data
        match s.m_TestRunner with
        | none => ⟨s, some Fault.emptyTestRunner⟩
        | some _ => ⟨s.emit (Event.compareGrids (some result) expectedResult), none⟩
    else ⟨s, none⟩
  else ⟨s, none⟩

/-- Embedding of `MaterialMappingView::startButtonClicked` (line 87-130). The functor built
by `createDensityFunctorFromGui` is bound to `densityFunctor` and not used
again; the two functors set on the filter are the lambdas with literal
coefficients. -/
def startButtonClicked (TESTING : Bool) (env : Env) (s : ViewState) : Outcome :=
  let s0 := s.emit (Event.info "processing input")
  let (valid, s1) := isValidSelection s0
  if valid then
    match s1.m_Controls.greyscaleImageComboBox with
    | none => ⟨s1, some Fault.emptyImageNode⟩
    | some imageNode =>
      match s1.m_Controls.unstructuredGridComboBox with
      | none => ⟨s1, some Fault.emptyUgridNode⟩
      | some ugridNode =>
        let image := asImage imageNode.data
        let ugrid := asUnstructuredGrid ugridNode.data
        let s2 := s1.emit Event.filterNew
        let filter : MaterialMappingFilter := {}
        let filter := { filter with input := ugrid }
        let filter := { filter with intensityImage := image }
        let (_densityFunctor, s3) := createDensityFunctorFromGui env s2
        let filter := { filter with linearFunctor := some linearFunctor }
        let filter := { filter with powerLawFunctor := some (powerLawFunctor env.pow) }
        let s4 := s3.emit (Event.filterUpdate filter)
        let result := env.filterOutput filter
        let newNode := resultNode result
        let s5 := { s4 with dataStorage := s4.dataStorage ++ [newNode] }
        testingBlock TESTING result s5
  else ⟨s1, none⟩

/-- The filter configurations that were run, in order. -/
def updatedFilters (log : List Event) : List MaterialMappingFilter :=
  log.filterMap Event.updatedFilter

/-- The elements of a list whose position satisfies `p`, in their order. -/
def keepIdx {α : Type} (p : Nat → Bool) : List α → List α
  | [] => []
  | x :: xs =>
    if p 0 then x :: keepIdx (fun j => p (j + 1)) xs
    else keepIdx (fun j => p (j + 1)) xs

/-- The table with the rows at the selected positions removed and all other
rows kept in their original order. -/
def Spec.withoutRows (rows : List (ℚ × ℚ)) (selected : List Nat) : List (ℚ × ℚ) :=
  (rows.enum.filter (fun e => decide (e.1 ∉ selected))).map Prod.snd

/-- The calls one run of `startButtonClicked` adds to the log. -/
def eventsOf (TESTING : Bool) (env : Env) (s : ViewState) : List Event :=
  ((startButtonClicked TESTING env s).state.log).drop s.log.length

/-- The filter configurations one run of `startButtonClicked` updates. -/
def filtersRunBy (TESTING : Bool) (env : Env) (s : ViewState) : List MaterialMappingFilter :=
  updatedFilters (eventsOf TESTING env s)

/-- The filter configuration `startButtonClicked` builds (line 96-107) from the
two selected nodes. -/
def configuredFilter (env : Env) (imageNode ugridNode : DataNode) : MaterialMappingFilter :=
  { input := asUnstructuredGrid ugridNode.data
    intensityImage := asImage imageNode.data
    linearFunctor := some linearFunctor
    powerLawFunctor := some (powerLawFunctor env.pow) }

/-- Degenerate calibration of §4.2: fewer than 2 points, or all intensities
identical. -/
def Spec.degenerateCalibration (points : List (ℚ × ℚ)) : Bool :=
  decide (points.length < 2) ||
    points.all (fun p => points.all (fun q => decide (p.1 = q.1)))

/-- The error taxonomy of §7, as far as the stage chain goes. -/
inductive Spec.ChainError where
  | InvalidStageChain
  deriving DecidableEq, Repr

/-- Validation of the stage flags as §4.3 words it: stage 3 requested without
stage 2 enabled is the configuration error `InvalidStageChain`. -/
def Spec.checkStageChain (rhoAshEnabled rhoAppEnabled : Bool) : Except Spec.ChainError Unit :=
  if rhoAppEnabled && !rhoAshEnabled then Except.error Spec.ChainError.InvalidStageChain
  else Except.ok ()

/-! ## Concrete inputs -/

/-- Stand-ins for the code outside this file: multiplication for `pow`, the line
through the origin with slope 0 for every fit, and the grid with handle 0 for
every filter output. -/
def exampleEnv : Env :=
  { pow := fun b e => b * e
    getFittedLine := fun _ => ⟨0, 0⟩
    filterOutput := fun _ => ⟨0⟩ }

/-- A node holding an image. -/
def exampleImageNode : DataNode := ⟨some (BaseData.image ⟨1⟩), []⟩

/-- A node holding an unstructured grid. -/
def exampleGridNode : DataNode := ⟨some (BaseData.unstructuredGrid ⟨2⟩), []⟩

/-- A node holding the expected result of a comparison. -/
def exampleExpectedNode : DataNode := ⟨some (BaseData.unstructuredGrid ⟨3⟩), []⟩

/-- Controls with an image and a grid selected, the rhoApp box checked and the
rhoAsh box unchecked, and the comparison requested against a selected grid. -/
def exampleControls : Controls :=
  { greyscaleImageComboBox := some exampleImageNode
    unstructuredGridComboBox := some exampleGridNode
    expectedResultComboBox := some exampleExpectedNode
    rhoAshCheckBox := false
    rhoAppCheckBox := true
    rhoAshOffsetSpinBox := 9 / 100
    rhoAshDivisorSpinBox := 114 / 100
    rhoAppDivisorSpinBox := 6 / 10
    linEQSlopeSpinBox := 0
    linEQOffsetSpinBox := 0
    testingDoComparisonCheckBox := true
    testingGroupShown := false
    calibrationTableView := [] }

/-- A view with `exampleControls`, an empty calibration table, an empty data
storage and nothing logged. -/
def exampleState : ViewState :=
  { m_Controls := exampleControls
    m_CalibrationDataModel := []
    m_TestRunner := none
    dataStorage := []
    log := [] }

/-- The view of `exampleState` with the calibration points (0,0), (1000,1) and
the rhoAsh box checked. -/
def exampleStateAsh : ViewState :=
  { exampleState with
    m_Controls := { exampleControls with rhoAshCheckBox := true }
    m_CalibrationDataModel := [(0, 0), (1000, 1)] }

/-- The view of `exampleState` with no image selected. -/
def exampleStateNoImage : ViewState :=
  { exampleState with
    m_Controls := { exampleControls with greyscaleImageComboBox := none } }

/-- The view of `exampleState` with a four-row table in which rows 2, 0 and 2
again are selected. -/
def exampleStateRows : ViewState :=
  { exampleState with
    m_Controls := { exampleControls with calibrationTableView := [2, 0, 2] }
    m_CalibrationDataModel := [(0, 0), (10, 1), (20, 2), (30, 3)] }

/-- The view of `exampleState` with the zero-variance calibration points of the
specification, (5,5) three times. -/
def exampleStateDegenerate : ViewState :=
  { exampleState with m_CalibrationDataModel := [(5, 5), (5, 5), (5, 5)] }

/-! ## Theorems -/

/-! ### Row deletion -/

theorem mem_setInsert (x y : Nat) (s : List Nat) :
    y ∈ setInsert x s ↔ y = x ∨ y ∈ s := by
  induction s with
  | nil => simp [setInsert]
  | cons z zs ih =>
    unfold setInsert
    split_ifs with h1 h2
    · simp
    · subst h2
      simp
    · simp only [List.mem_cons, ih]
      tauto

theorem pairwise_setInsert (x : Nat) (s : List Nat) (hs : s.Pairwise (· < ·)) :
    (setInsert x s).Pairwise (· < ·) := by
  induction s with
  | nil => simp [setInsert]
  | cons z zs ih =>
    unfold setInsert
    rw [List.pairwise_cons] at hs
    split_ifs with h1 h2
    · refine List.pairwise_cons.mpr ⟨?_, List.pairwise_cons.mpr hs⟩
      intro a ha
      rcases List.mem_cons.mp ha with rfl | ha
      · exact h1
      · exact lt_trans h1 (hs.1 a ha)
    · exact List.pairwise_cons.mpr hs
    · refine List.pairwise_cons.mpr ⟨?_, ih hs.2⟩
      intro a ha
      rcases (mem_setInsert x a zs).mp ha with rfl | ha
      · omega
      · exact hs.1 a ha

theorem foldl_setInsert (items acc : List Nat) (hacc : acc.Pairwise (· < ·)) :
    (items.foldl (fun set item => setInsert item set) acc).Pairwise (· < ·) ∧
      ∀ y, y ∈ items.foldl (fun set item => setInsert item set) acc ↔ y ∈ acc ∨ y ∈ items := by
  induction items generalizing acc with
  | nil => simp [hacc]
  | cons i is ih =>
    obtain ⟨h1, h2⟩ := ih (setInsert i acc) (pairwise_setInsert i acc hacc)
    refine ⟨h1, fun y => ?_⟩
    simp only [List.foldl_cons, h2, mem_setInsert, List.mem_cons]
    tauto

theorem removeRowCalls_desc (items : List Nat) :
    (removeRowCalls items).Pairwise (· > ·) ∧ ∀ y, y ∈ removeRowCalls items ↔ y ∈ items := by
  obtain ⟨h1, h2⟩ := foldl_setInsert items [] List.Pairwise.nil
  refine ⟨?_, fun y => ?_⟩
  · unfold removeRowCalls rowsToDelete
    rw [List.pairwise_reverse]
    exact h1
  · unfold removeRowCalls rowsToDelete
    rw [List.mem_reverse, h2]
    simp

theorem keepIdx_congr {α : Type} (l : List α) (p q : Nat → Bool)
    (h : ∀ j, j < l.length → p j = q j) : keepIdx p l = keepIdx q l := by
  induction l generalizing p q with
  | nil => rfl
  | cons x xs ih =>
    have h0 : p 0 = q 0 := h 0 (by simp)
    have ht : keepIdx (fun j => p (j + 1)) xs = keepIdx (fun j => q (j + 1)) xs :=
      ih _ _ (fun j hj => h (j + 1) (by simpa using hj))
    simp only [keepIdx, h0, ht]

theorem keepIdx_true {α : Type} (l : List α) : keepIdx (fun _ => true) l = l := by
  induction l with
  | nil => rfl
  | cons x xs ih => simp only [keepIdx, ih, if_true]

theorem enumFrom_filter_map {α : Type} (p : Nat → Bool) (k : Nat) (l : List α) :
    ((l.enumFrom k).filter (fun e => p e.1)).map Prod.snd = keepIdx (fun j => p (j + k)) l := by
  induction l generalizing k with
  | nil => rfl
  | cons x xs ih =>
    have ht := ih (k + 1)
    have hc : keepIdx (fun j => p (j + (k + 1))) xs = keepIdx (fun j => p (j + 1 + k)) xs :=
      keepIdx_congr xs _ _ (fun j _ => by rw [Nat.add_right_comm, Nat.add_assoc])
    simp only [List.enumFrom_cons, List.filter_cons, keepIdx, Nat.zero_add]
    cases hp : p k
    · simp only [Bool.false_eq_true, if_false, ht, hc]
    · simp only [if_true, List.map_cons, ht, hc]

theorem keepIdx_eraseIdx {α : Type} (l : List α) (p : Nat → Bool) (i : Nat)
    (hp : ∀ j, i ≤ j → p j = true) :
    keepIdx p (l.eraseIdx i) = keepIdx (fun j => p j && decide (j ≠ i)) l := by
  induction l generalizing p i with
  | nil => rfl
  | cons x xs ih =>
    cases i with
    | zero =>
      have h1 : keepIdx p xs = keepIdx (fun _ => true) xs :=
        keepIdx_congr xs _ _ (fun j _ => hp j (Nat.zero_le j))
      have h2 : keepIdx (fun j => p (j + 1) && decide (j + 1 ≠ 0)) xs
          = keepIdx (fun _ => true) xs :=
        keepIdx_congr xs _ _ (fun j _ => by simp [hp (j + 1) (Nat.zero_le _)])
      simp only [List.eraseIdx_cons_zero, keepIdx, ne_eq, not_true_eq_false, decide_False,
        Bool.and_false, Bool.false_eq_true, if_false, h1, h2]
    | succ i =>
      have ht := ih (fun j => p (j + 1)) i (fun j hj => hp (j + 1) (by omega))
      have hc : keepIdx (fun j => p (j + 1) && decide (j + 1 ≠ i + 1)) xs
          = keepIdx (fun j => p (j + 1) && decide (j ≠ i)) xs :=
        keepIdx_congr xs _ _ (fun j _ => by simp)
      have h0 : (p 0 && decide (0 ≠ i + 1)) = p 0 := by simp
      simp only [List.eraseIdx_cons_succ, keepIdx, h0, ht, hc]

theorem foldl_eraseIdx_desc {α : Type} (d : List Nat) (hd : d.Pairwise (· > ·)) (l : List α) :
    d.foldl List.eraseIdx l = keepIdx (fun j => decide (j ∉ d)) l := by
  induction d generalizing l with
  | nil => simp [keepIdx_true]
  | cons i d ih =>
    rw [List.pairwise_cons] at hd
    rw [List.foldl_cons, ih hd.2, keepIdx_eraseIdx]
    · refine keepIdx_congr l _ _ (fun j _ => ?_)
      by_cases hji : j = i <;> by_cases hjd : j ∈ d <;> simp [hji, hjd]
    · intro j hj
      have : j ∉ d := fun hjd => by
        have := hd.1 j hjd
        omega
      simp [this]

/-! ### The handlers -/

theorem testingBlock_spec (TESTING : Bool) (result : UnstructuredGrid) (s : ViewState) :
    (testingBlock TESTING result s).state.dataStorage = s.dataStorage ∧
      ∃ evs, (testingBlock TESTING result s).state.log = s.log ++ evs ∧
        updatedFilters evs = [] := by
  unfold testingBlock
  split_ifs
  · rcases he : s.m_Controls.expectedResultComboBox with _ | n
    · exact ⟨rfl, [], (List.append_nil _).symm, rfl⟩
    · rcases hr : s.m_TestRunner with _ | r
      · exact ⟨rfl, [], (List.append_nil _).symm, rfl⟩
      · exact ⟨rfl, [Event.compareGrids (some result) (asUnstructuredGrid n.data)], rfl, rfl⟩
  · exact ⟨rfl, [], (List.append_nil _).symm, rfl⟩
  · exact ⟨rfl, [], (List.append_nil _).symm, rfl⟩

theorem isValidSelection_iff (s : ViewState) :
    (isValidSelection s).1 = true ↔
      ∃ imageNode ugridNode image ugrid,
        s.m_Controls.greyscaleImageComboBox = some imageNode ∧
        s.m_Controls.unstructuredGridComboBox = some ugridNode ∧
        imageNode.data = some (BaseData.image image) ∧
        ugridNode.data = some (BaseData.unstructuredGrid ugrid) := by
  unfold isValidSelection
  rcases hi : s.m_Controls.greyscaleImageComboBox with _ | ⟨idata, iprops⟩
  · simp
  · rcases hu : s.m_Controls.unstructuredGridComboBox with _ | ⟨udata, uprops⟩
    · simp
    · rcases idata with _ | (i | g | h) <;> rcases udata with _ | (i2 | g2 | h2) <;>
        simp [asImage, asUnstructuredGrid]

theorem isValidSelection_shape (s : ViewState) :
    ∃ b evs, isValidSelection s = (b, { s with log := s.log ++ evs }) ∧
      updatedFilters evs = [] ∧ ∀ e ∈ evs, e.isRun = false := by
  rcases hi : s.m_Controls.greyscaleImageComboBox with _ | inode
  · refine ⟨false, [Event.setMandatoryField "greyscaleSelector" true,
      Event.setMandatoryField "meshSelector" s.m_Controls.unstructuredGridComboBox.isNone,
      Event.info "invalid data selection"], ?_, rfl, ?_⟩
    · simp [isValidSelection, ViewState.emit, hi]
    · simp [Event.isRun]
  · rcases hu : s.m_Controls.unstructuredGridComboBox with _ | unode
    · refine ⟨false, [Event.setMandatoryField "greyscaleSelector" false,
        Event.setMandatoryField "meshSelector" true,
        Event.info "invalid data selection"], ?_, rfl, ?_⟩
      · simp [isValidSelection, ViewState.emit, hi, hu]
      · simp [Event.isRun]
    · by_cases hv : ((asImage inode.data).isSome && (asUnstructuredGrid unode.data).isSome) = true
      · refine ⟨true, [Event.setMandatoryField "greyscaleSelector" false,
          Event.setMandatoryField "meshSelector" false], ?_, rfl, ?_⟩
        · simp only [isValidSelection, ViewState.emit, hi, hu, hv]
          simp
        · simp [Event.isRun]
      · refine ⟨false, [Event.setMandatoryField "greyscaleSelector" false,
          Event.setMandatoryField "meshSelector" false,
          Event.warning "Error" "Invalid data. Select an image and a unstructured grid.",
          Event.info "invalid data selection"], ?_, rfl, ?_⟩
        · simp only [isValidSelection, ViewState.emit, hi, hu, hv]
          simp
        · simp [Event.isRun]

theorem isValidSelection_emit (s : ViewState) (e : Event) :
    (isValidSelection (s.emit e)).1 = (isValidSelection s).1 := by
  rw [Bool.eq_iff_iff, isValidSelection_iff, isValidSelection_iff]
  rfl

theorem startButtonClicked_invalid (TESTING : Bool) (env : Env) (s : ViewState)
    (h : (isValidSelection s).1 = false) :
    ∃ evs, startButtonClicked TESTING env s = ⟨{ s with log := s.log ++ evs }, none⟩ ∧
      updatedFilters evs = [] ∧ ∀ e ∈ evs, e.isRun = false := by
  rw [← isValidSelection_emit s (Event.info "processing input")] at h
  obtain ⟨b, evs, heq, hup, hrun⟩ := isValidSelection_shape (s.emit (Event.info "processing input"))
  rw [heq] at h
  simp only at h
  subst h
  refine ⟨Event.info "processing input" :: evs, ?_, ?_, ?_⟩
  · unfold startButtonClicked
    simp only [heq]
    simp [ViewState.emit]
  · simpa [updatedFilters, Event.updatedFilter] using hup
  · intro e he
    rcases List.mem_cons.mp he with rfl | he
    · rfl
    · exact hrun e he

theorem startButtonClicked_valid (TESTING : Bool) (env : Env) (s : ViewState)
    (h : (isValidSelection s).1 = true) :
    ∃ imageNode ugridNode evs,
      s.m_Controls.greyscaleImageComboBox = some imageNode ∧
      s.m_Controls.unstructuredGridComboBox = some ugridNode ∧
      updatedFilters evs = [configuredFilter env imageNode ugridNode] ∧
      startButtonClicked TESTING env s =
        testingBlock TESTING (env.filterOutput (configuredFilter env imageNode ugridNode))
          { s with
            dataStorage := s.dataStorage ++
              [resultNode (env.filterOutput (configuredFilter env imageNode ugridNode))]
            log := s.log ++ evs } := by
  obtain ⟨imageNode, ugridNode, image, ugrid, hi, hu, -, -⟩ := (isValidSelection_iff s).mp h
  rw [← isValidSelection_emit s (Event.info "processing input")] at h
  obtain ⟨b, evs, heq, hup, -⟩ := isValidSelection_shape (s.emit (Event.info "processing input"))
  rw [heq] at h
  simp only at h
  subst h
  refine ⟨imageNode, ugridNode,
    Event.info "processing input" :: (evs ++ [Event.filterNew,
      Event.infoFunctor (createDensityFunctorFromGui env s).1,
      Event.filterUpdate (configuredFilter env imageNode ugridNode)]), hi, hu, ?_, ?_⟩
  · simp only [updatedFilters] at hup ⊢
    simp [List.filterMap_cons, List.filterMap_append, hup, Event.updatedFilter]
  · unfold startButtonClicked
    simp only [heq]
    simp [ViewState.emit, hi, hu, createDensityFunctorFromGui, configuredFilter]

theorem startButtonClicked_of_selected (TESTING : Bool) (env : Env) (s : ViewState)
    (imageNode ugridNode : DataNode) (h : (isValidSelection s).1 = true)
    (hi : s.m_Controls.greyscaleImageComboBox = some imageNode)
    (hu : s.m_Controls.unstructuredGridComboBox = some ugridNode) :
    filtersRunBy TESTING env s = [configuredFilter env imageNode ugridNode] ∧
      (startButtonClicked TESTING env s).state.dataStorage =
        s.dataStorage ++ [resultNode (env.filterOutput (configuredFilter env imageNode ugridNode))] := by
  obtain ⟨i, u, evs, hi2, hu2, hup, heq⟩ := startButtonClicked_valid TESTING env s h
  rw [hi] at hi2
  rw [hu] at hu2
  cases hi2
  cases hu2
  obtain ⟨hst, evs2, hlog, hup2⟩ := testingBlock_spec TESTING
    (env.filterOutput (configuredFilter env imageNode ugridNode))
    { s with
      dataStorage := s.dataStorage ++
        [resultNode (env.filterOutput (configuredFilter env imageNode ugridNode))]
      log := s.log ++ evs }
  constructor
  · unfold filtersRunBy eventsOf
    rw [heq, hlog]
    simp only [List.append_assoc, List.drop_left]
    unfold updatedFilters at hup hup2 ⊢
    rw [List.filterMap_append, hup, hup2]
    rfl
  · rw [heq, hst]

theorem startButtonClicked_refused (TESTING : Bool) (env : Env) (s : ViewState)
    (h : (isValidSelection s).1 = false) :
    (startButtonClicked TESTING env s).fault = none ∧
      (startButtonClicked TESTING env s).state.dataStorage = s.dataStorage ∧
      filtersRunBy TESTING env s = [] ∧
      ∀ e ∈ eventsOf TESTING env s, e.isRun = false := by
  obtain ⟨evs, heq, hup, hrun⟩ := startButtonClicked_invalid TESTING env s h
  unfold filtersRunBy eventsOf
  rw [heq]
  simp only [List.drop_left]
  exact ⟨trivial, trivial, hup, hrun⟩

theorem foldl_eraseIdx_length {α : Type} (d : List Nat) (hd : d.Pairwise (· > ·)) (l : List α)
    (hv : ∀ i ∈ d, i < l.length) : (d.foldl List.eraseIdx l).length + d.length = l.length := by
  induction d generalizing l with
  | nil => simp
  | cons i d ih =>
    rw [List.pairwise_cons] at hd
    have hi : i < l.length := hv i (List.mem_cons_self i d)
    have hl : (l.eraseIdx i).length = l.length - 1 := List.length_eraseIdx_of_lt hi
    have hv2 : ∀ j ∈ d, j < (l.eraseIdx i).length := by
      intro j hj
      have := hd.1 j hj
      omega
    have := ih hd.2 (l.eraseIdx i) hv2
    simp only [List.foldl_cons, List.length_cons]
    omega

theorem installed_functors (TESTING : Bool) (env : Env) (s : ViewState) :
    (filtersRunBy TESTING env s).filterMap (fun f => f.linearFunctor) =
        (if (isValidSelection s).1 = true then [linearFunctor] else []) ∧
      (filtersRunBy TESTING env s).filterMap (fun f => f.powerLawFunctor) =
        (if (isValidSelection s).1 = true then [powerLawFunctor env.pow] else []) := by
  by_cases h : (isValidSelection s).1 = true
  · obtain ⟨imageNode, ugridNode, -, -, hi, hu, -, -⟩ := (isValidSelection_iff s).mp h
    rw [(startButtonClicked_of_selected TESTING env s imageNode ugridNode h hi hu).1]
    simp only [h, if_true]
    exact ⟨rfl, rfl⟩
  · have h2 : (isValidSelection s).1 = false := by simpa using h
    rw [(startButtonClicked_refused TESTING env s h2).2.2.1]
    simp only [h, if_false]
    exact ⟨rfl, rfl⟩

/-! ## The claims -/

/-- C1: the power-law functor of every filter that `startButtonClicked` runs is
the lambda of line 105-107; for every density `x ≤ 0` that functor returns the
modulus it returns for `x = 0`, and the base it passes to `pow` is `0` there and
negative for no density. -/
theorem powerLaw_clamps_nonpositive (TESTING : Bool) (env : Env) (s : ViewState) (x : ℚ)
    (hx : x ≤ 0) :
    (filtersRunBy TESTING env s).filterMap (fun f => f.powerLawFunctor) =
        (if (isValidSelection s).1 = true then [powerLawFunctor env.pow] else []) ∧
      powerLawFunctor env.pow x = powerLawFunctor env.pow 0 ∧ powerLawBase x = 0 ∧
      ∀ y : ℚ, 0 ≤ powerLawBase y := by
  have h0 : ∀ z : ℚ, z ≤ 0 → stdMax z 0 = 0 := by
    intro z hz
    unfold stdMax
    split_ifs with h
    · rfl
    · exact le_antisymm hz (not_lt.mp h)
  refine ⟨(installed_functors TESTING env s).2, ?_, ?_, ?_⟩
  · simp only [powerLawFunctor, powerLawBase, h0 x hx, h0 0 le_rfl]
  · simp only [powerLawBase, h0 x hx, zero_div]
  · intro y
    unfold powerLawBase stdMax
    split_ifs with h
    · simp
    · exact div_nonneg (not_lt.mp h) (by norm_num)

/-- Witness of C1 at the density `-5` of the specification's test. -/
theorem powerLaw_clamps_nonpositive_witness :
    (-5 : ℚ) ≤ 0 ∧
      ((filtersRunBy true exampleEnv exampleState).filterMap (fun f => f.powerLawFunctor) =
          (if (isValidSelection exampleState).1 = true then [powerLawFunctor exampleEnv.pow]
            else []) ∧
        powerLawFunctor exampleEnv.pow (-5) = powerLawFunctor exampleEnv.pow 0 ∧
        powerLawBase (-5) = 0 ∧ ∀ y : ℚ, 0 ≤ powerLawBase y) :=
  ⟨by norm_num, powerLaw_clamps_nonpositive true exampleEnv exampleState (-5) (by norm_num)⟩

/-- C2: `isValidSelection` returns true exactly when an image node and a grid
node are both selected and hold an image and an unstructured grid; when it
returns false, `startButtonClicked` ends without a fault, leaves the data
storage as it was, updates no filter, and makes no call that creates or runs a
filter or a comparison. -/
theorem invalid_selection_refused (TESTING : Bool) (env : Env) (s : ViewState) :
    ((isValidSelection s).1 = true ↔
        ∃ imageNode ugridNode image ugrid,
          s.m_Controls.greyscaleImageComboBox = some imageNode ∧
          s.m_Controls.unstructuredGridComboBox = some ugridNode ∧
          imageNode.data = some (BaseData.image image) ∧
          ugridNode.data = some (BaseData.unstructuredGrid ugrid)) ∧
      ((isValidSelection s).1 = false →
        (startButtonClicked TESTING env s).fault = none ∧
        (startButtonClicked TESTING env s).state.dataStorage = s.dataStorage ∧
        filtersRunBy TESTING env s = [] ∧
        ∀ e ∈ eventsOf TESTING env s, e.isRun = false) :=
  ⟨isValidSelection_iff s, startButtonClicked_refused TESTING env s⟩

/-- Witness of C2 at a view with a grid but no image selected. -/
theorem invalid_selection_refused_witness :
    (isValidSelection exampleStateNoImage).1 = false ∧
      (startButtonClicked true exampleEnv exampleStateNoImage).fault = none ∧
      (startButtonClicked true exampleEnv exampleStateNoImage).state.dataStorage =
        exampleStateNoImage.dataStorage ∧
      filtersRunBy true exampleEnv exampleStateNoImage = [] ∧
      ∀ e ∈ eventsOf true exampleEnv exampleStateNoImage, e.isRun = false :=
  ⟨rfl, (invalid_selection_refused true exampleEnv exampleStateNoImage).2 rfl⟩

/-- C3: the functor `createDensityFunctorFromGui` returns has RhoCt set to the
fitted line, RhoAsh set (to the spin-box values) exactly when the rhoAsh box is
checked, and RhoApp set exactly when both boxes are checked; it never has RhoApp
set without RhoAsh. -/
theorem createDensityFunctorFromGui_stages (env : Env) (s : ViewState) :
    (createDensityFunctorFromGui env s).1.rhoCt =
        some (env.getFittedLine s.m_CalibrationDataModel) ∧
      (createDensityFunctorFromGui env s).1.rhoAsh =
        (if s.m_Controls.rhoAshCheckBox = true then
          some ⟨s.m_Controls.rhoAshOffsetSpinBox, s.m_Controls.rhoAshDivisorSpinBox⟩
        else none) ∧
      (createDensityFunctorFromGui env s).1.rhoApp =
        (if s.m_Controls.rhoAshCheckBox = true ∧ s.m_Controls.rhoAppCheckBox = true then
          some ⟨s.m_Controls.rhoAppDivisorSpinBox⟩
        else none) ∧
      (createDensityFunctorFromGui env s).1.rhoAsh.isSome = s.m_Controls.rhoAshCheckBox ∧
      (createDensityFunctorFromGui env s).1.rhoApp.isSome =
        (s.m_Controls.rhoAshCheckBox && s.m_Controls.rhoAppCheckBox) ∧
      ¬ ((createDensityFunctorFromGui env s).1.rhoApp.isSome = true ∧
          (createDensityFunctorFromGui env s).1.rhoAsh.isSome = false) := by
  unfold createDensityFunctorFromGui
  cases hash : s.m_Controls.rhoAshCheckBox <;> cases happ : s.m_Controls.rhoAppCheckBox <;>
    simp [BoneDensityFunctor.SetRhoCt, BoneDensityFunctor.SetRhoAsh,
      BoneDensityFunctor.SetRhoApp]

/-- C4, as the code behaves: at a view with the rhoApp box checked and the
rhoAsh box unchecked, where §4.3 demands the error `InvalidStageChain`,
`createDensityFunctorFromGui` returns a functor, the one with only RhoCt set. -/
theorem stage3_without_stage2_returns_functor :
    exampleState.m_Controls.rhoAppCheckBox = true ∧
      exampleState.m_Controls.rhoAshCheckBox = false ∧
      Spec.checkStageChain exampleState.m_Controls.rhoAshCheckBox
          exampleState.m_Controls.rhoAppCheckBox =
        Except.error Spec.ChainError.InvalidStageChain ∧
      (createDensityFunctorFromGui exampleEnv exampleState).1 =
        { rhoCt := some ⟨0, 0⟩, rhoAsh := none, rhoApp := none } :=
  ⟨rfl, rfl, rfl, rfl⟩

/-- C4 amended: with the rhoAsh box unchecked, `createDensityFunctorFromGui`
raises no error and does not read the rhoApp box: whether that box is checked or
not, it returns the functor with only RhoCt set, to the fitted line. -/
theorem stage3_without_stage2_ignored (env : Env) (s : ViewState) (rhoApp : Bool)
    (hash : s.m_Controls.rhoAshCheckBox = false) :
    (createDensityFunctorFromGui env
        { s with m_Controls := { s.m_Controls with rhoAppCheckBox := rhoApp } }).1 =
      { rhoCt := some (env.getFittedLine s.m_CalibrationDataModel)
        rhoAsh := none
        rhoApp := none } := by
  unfold createDensityFunctorFromGui
  simp [hash, BoneDensityFunctor.SetRhoCt]

/-- Witness of the amended C4 at `exampleState`, with the rhoApp box checked. -/
theorem stage3_without_stage2_ignored_witness :
    exampleState.m_Controls.rhoAshCheckBox = false ∧
      (createDensityFunctorFromGui exampleEnv
          { exampleState with
            m_Controls := { exampleState.m_Controls with rhoAppCheckBox := true } }).1 =
        { rhoCt := some (exampleEnv.getFittedLine exampleState.m_CalibrationDataModel)
          rhoAsh := none
          rhoApp := none } :=
  ⟨rfl, stage3_without_stage2_ignored exampleEnv exampleState true rfl⟩

/-- C5, as the code behaves: with the zero-variance calibration points (5,5),
(5,5), (5,5) and a valid selection, `startButtonClicked` updates the filter and
adds the result node to the data storage. -/
theorem degenerate_calibration_not_blocked :
    Spec.degenerateCalibration exampleStateDegenerate.m_CalibrationDataModel = true ∧
      filtersRunBy false exampleEnv exampleStateDegenerate =
        [configuredFilter exampleEnv exampleImageNode exampleGridNode] ∧
      exampleStateDegenerate.dataStorage = [] ∧
      (startButtonClicked false exampleEnv exampleStateDegenerate).state.dataStorage =
        [resultNode ⟨0⟩] := by
  refine ⟨by decide, ?_, rfl, ?_⟩
  · exact (startButtonClicked_of_selected false exampleEnv exampleStateDegenerate
      exampleImageNode exampleGridNode rfl rfl rfl).1
  · exact (startButtonClicked_of_selected false exampleEnv exampleStateDegenerate
      exampleImageNode exampleGridNode rfl rfl rfl).2

/-- C5 amended: `startButtonClicked` does not examine the calibration points.
Whenever `isValidSelection` returns true then, whatever rows the calibration
table holds, the filter built from the two selected nodes is updated, once, and
the node of its output is appended to the data storage. -/
theorem calibration_not_examined (TESTING : Bool) (env : Env) (s : ViewState)
    (table : List (ℚ × ℚ)) (h : (isValidSelection s).1 = true) :
    ∃ imageNode ugridNode,
      s.m_Controls.greyscaleImageComboBox = some imageNode ∧
      s.m_Controls.unstructuredGridComboBox = some ugridNode ∧
      filtersRunBy TESTING env { s with m_CalibrationDataModel := table } =
        [configuredFilter env imageNode ugridNode] ∧
      (startButtonClicked TESTING env { s with m_CalibrationDataModel := table }).state.dataStorage =
        s.dataStorage ++
          [resultNode (env.filterOutput (configuredFilter env imageNode ugridNode))] := by
  obtain ⟨imageNode, ugridNode, -, -, hi, hu, -, -⟩ := (isValidSelection_iff s).mp h
  have h2 : (isValidSelection { s with m_CalibrationDataModel := table }).1 = true := by
    rw [isValidSelection_iff] at h ⊢
    exact h
  exact ⟨imageNode, ugridNode, hi, hu,
    startButtonClicked_of_selected TESTING env { s with m_CalibrationDataModel := table }
      imageNode ugridNode h2 hi hu⟩

/-- Witness of the amended C5 at `exampleState` and the zero-variance table. -/
theorem calibration_not_examined_witness :
    (isValidSelection exampleState).1 = true ∧
      ∃ imageNode ugridNode,
        exampleState.m_Controls.greyscaleImageComboBox = some imageNode ∧
        exampleState.m_Controls.unstructuredGridComboBox = some ugridNode ∧
        filtersRunBy true exampleEnv
            { exampleState with m_CalibrationDataModel := [(5, 5), (5, 5), (5, 5)] } =
          [configuredFilter exampleEnv imageNode ugridNode] ∧
        (startButtonClicked true exampleEnv
            { exampleState with
              m_CalibrationDataModel := [(5, 5), (5, 5), (5, 5)] }).state.dataStorage =
          exampleState.dataStorage ++
            [resultNode (exampleEnv.filterOutput
              (configuredFilter exampleEnv imageNode ugridNode))] :=
  ⟨rfl, calibration_not_examined true exampleEnv exampleState [(5, 5), (5, 5), (5, 5)] rfl⟩

/-- C6, as the code behaves: two views with the same selected nodes that differ
in the calibration table and in the rhoAsh box build different density functors
in `createDensityFunctorFromGui`, and `startButtonClicked` runs the same filter
configuration for both, the one with the two literal-coefficient lambdas. -/
theorem filter_configuration_ignores_gui (TESTING : Bool) (env : Env) :
    exampleState.m_CalibrationDataModel ≠ exampleStateAsh.m_CalibrationDataModel ∧
      (createDensityFunctorFromGui env exampleState).1 ≠
        (createDensityFunctorFromGui env exampleStateAsh).1 ∧
      filtersRunBy TESTING env exampleState =
        [configuredFilter env exampleImageNode exampleGridNode] ∧
      filtersRunBy TESTING env exampleStateAsh =
        [configuredFilter env exampleImageNode exampleGridNode] := by
  refine ⟨by decide, ?_, ?_, ?_⟩
  · intro h
    have h2 := congrArg BoneDensityFunctor.rhoAsh h
    simp [createDensityFunctorFromGui, exampleState, exampleStateAsh, exampleControls,
      BoneDensityFunctor.SetRhoCt, BoneDensityFunctor.SetRhoAsh,
      BoneDensityFunctor.SetRhoApp] at h2
  · exact (startButtonClicked_of_selected TESTING env exampleState
      exampleImageNode exampleGridNode rfl rfl rfl).1
  · exact (startButtonClicked_of_selected TESTING env exampleStateAsh
      exampleImageNode exampleGridNode rfl rfl rfl).1

/-- C7: the linear functor of every filter that `startButtonClicked` runs is the
lambda of line 102-104; in exact rational arithmetic that functor is stage 1 followed by stage 2 of the density chain with
slope 1/1000, offset 0, rhoAsh offset 0.09 and divisor 1.14, and it is the
linear map `a*ct + b` with `a = 1/1140`, `b = 9/114`. -/
theorem linearFunctor_eq_chain (TESTING : Bool) (env : Env) (s : ViewState) (ct : ℚ) :
    (filtersRunBy TESTING env s).filterMap (fun f => f.linearFunctor) =
        (if (isValidSelection s).1 = true then [linearFunctor] else []) ∧
      linearFunctor ct = Spec.rhoAsh (9 / 100) (114 / 100) (Spec.rhoCt ⟨1 / 1000, 0⟩ ct) ∧
      linearFunctor ct = Spec.linearMap (1 / 1140) (9 / 114) ct := by
  refine ⟨(installed_functors TESTING env s).1, ?_, ?_⟩
  · simp only [linearFunctor, Spec.rhoAsh, Spec.rhoCt]
    ring
  · simp only [linearFunctor, Spec.linearMap]
    ring

/-- C8: the power-law functor of every filter that `startButtonClicked` runs is
the lambda of line 105-107, and that functor is the power-law
map `a * pow(max(y, 0), b)` with `a = 6850`, `b = 1.49` at the stage-3 density
`y = x / 0.6`; clamping before the division gives the base that clamping after
it gives. -/
theorem powerLawFunctor_eq_spec (TESTING : Bool) (env : Env) (s : ViewState) (x : ℚ) :
    (filtersRunBy TESTING env s).filterMap (fun f => f.powerLawFunctor) =
        (if (isValidSelection s).1 = true then [powerLawFunctor env.pow] else []) ∧
      powerLawFunctor env.pow x =
        Spec.powerLawMap env.pow 6850 (149 / 100) (Spec.rhoApp (6 / 10) x) ∧
      stdMax x 0 / (6 / 10) = max (x / (6 / 10)) 0 := by
  have hb : stdMax x 0 / (6 / 10) = max (x / (6 / 10)) 0 := by
    unfold stdMax
    split_ifs with h
    · have : x / (6 / 10) ≤ 0 := div_nonpos_of_nonpos_of_nonneg h.le (by norm_num)
      rw [max_eq_right this, zero_div]
    · have : 0 ≤ x / (6 / 10) := div_nonneg (not_lt.mp h) (by norm_num)
      rw [max_eq_left this]
  refine ⟨(installed_functors TESTING env s).2, ?_, hb⟩
  simp only [powerLawFunctor, powerLawBase, Spec.powerLawMap, Spec.rhoApp, hb]

/-- C9: for every calibration table and every selection of valid row positions,
repeats allowed, the `removeRow` calls of `deleteSelectedRows` go through the
selected positions in strictly descending order, each position once; every call
removes one row; and the table left is the original one without the rows at the
selected positions, the other rows in their original order. -/
theorem deleteSelectedRows_removes_selection (s : ViewState)
    (hvalid : ∀ i ∈ s.m_Controls.calibrationTableView, i < s.m_CalibrationDataModel.length) :
    (removeRowCalls s.m_Controls.calibrationTableView).Pairwise (· > ·) ∧
      (∀ i, i ∈ removeRowCalls s.m_Controls.calibrationTableView ↔
        i ∈ s.m_Controls.calibrationTableView) ∧
      (deleteSelectedRows s).m_CalibrationDataModel =
        (removeRowCalls s.m_Controls.calibrationTableView).foldl removeRow
          s.m_CalibrationDataModel ∧
      (deleteSelectedRows s).m_CalibrationDataModel.length +
          (removeRowCalls s.m_Controls.calibrationTableView).length =
        s.m_CalibrationDataModel.length ∧
      (deleteSelectedRows s).m_CalibrationDataModel =
        Spec.withoutRows s.m_CalibrationDataModel s.m_Controls.calibrationTableView := by
  obtain ⟨hdesc, hmem⟩ := removeRowCalls_desc s.m_Controls.calibrationTableView
  have hfold : (deleteSelectedRows s).m_CalibrationDataModel =
      (removeRowCalls s.m_Controls.calibrationTableView).foldl List.eraseIdx
        s.m_CalibrationDataModel := rfl
  refine ⟨hdesc, hmem, rfl, ?_, ?_⟩
  · rw [hfold]
    exact foldl_eraseIdx_length _ hdesc _ (fun i hi => hvalid i ((hmem i).mp hi))
  · rw [hfold, foldl_eraseIdx_desc _ hdesc]
    unfold Spec.withoutRows List.enum
    rw [enumFrom_filter_map (fun j => decide (j ∉ s.m_Controls.calibrationTableView)) 0]
    exact keepIdx_congr _ _ _ (fun j _ => by simp [hmem j])

/-- Witness of C9 at a four-row table with rows 2, 0 and 2 again selected. -/
theorem deleteSelectedRows_removes_selection_witness :
    (∀ i ∈ exampleStateRows.m_Controls.calibrationTableView,
        i < exampleStateRows.m_CalibrationDataModel.length) ∧
      removeRowCalls exampleStateRows.m_Controls.calibrationTableView = [2, 0] ∧
      (deleteSelectedRows exampleStateRows).m_CalibrationDataModel = [(10, 1), (30, 3)] ∧
      (deleteSelectedRows exampleStateRows).m_CalibrationDataModel =
        Spec.withoutRows exampleStateRows.m_CalibrationDataModel
          exampleStateRows.m_Controls.calibrationTableView :=
  ⟨by decide, rfl, rfl,
    (deleteSelectedRows_removes_selection exampleStateRows (by decide)).2.2.2.2⟩

/-- C10, as the code behaves: in TESTING mode `CreateQtPartControl` leaves
`m_TestRunner` empty, whatever it held before, and a `startButtonClicked` after
it with a valid selection, the comparison box checked and an expected result
selected ends in the dereference of the empty `m_TestRunner`, after the result
node was added and with no `compareGrids` call made. -/
theorem testRunner_empty_after_create (env : Env) (s : ViewState) :
    (CreateQtPartControl true s).m_TestRunner = none ∧
      (startButtonClicked true env (CreateQtPartControl true exampleState)).fault =
        some Fault.emptyTestRunner ∧
      (startButtonClicked true env (CreateQtPartControl true exampleState)).state.dataStorage =
        [resultNode (env.filterOutput (configuredFilter env exampleImageNode exampleGridNode))] ∧
      ∀ e ∈ eventsOf true env (CreateQtPartControl true exampleState),
        ∀ r x, e ≠ Event.compareGrids r x := by
  refine ⟨rfl, rfl, rfl, ?_⟩
  intro e he r x hex
  subst hex
  simp [eventsOf, startButtonClicked, isValidSelection, createDensityFunctorFromGui,
    testingBlock, CreateQtPartControl, ViewState.emit, exampleState, exampleControls,
    exampleImageNode, exampleGridNode, exampleExpectedNode, asImage,
    asUnstructuredGrid] at he

end MaterialMappingView
